import Mathlib

/-!
The connection layer and the auto-reclaiming pool of nebula-go:
a shallow embedding of `connection.go` and `autopool/autopool.go`.

The connection talks to collaborators that live outside the repository: the
thrift socket constructors, the generated `GraphServiceClient` stubs and the
clock.  They are embedded as an environment `Env σ`: a deterministic machine
over a hidden state `σ` that answers every call.  Every call the connection
makes is also appended to a trace, so that statements such as "exactly one
reopen" or "no second call" can be read off the trace.

A Go panic (here: a nil pointer dereference) is the result `none`.
-/

namespace NebulaGo

/-! ## Data model -/

/-- Go `time.Duration`, a signed count of nanoseconds. -/
abbrev Duration := Int

/-- Go `time.Time`, as the instant the clock reported. -/
abbrev Time := Int

/-- The endpoint `HostAddress{Host, Port}`. -/
structure HostAddress where
  Host : String
  Port : Int
  deriving DecidableEq, Repr

/-- The pointee of a `*tls.Config`; the connection never looks inside it. -/
structure TlsConfig where
  id : Nat
  deriving DecidableEq, Repr

/-- A Go `error` value.  The connection distinguishes a
`thrift.TransportException` (with its `TypeID()`) from every other error. -/
inductive GoError where
  | transportException (typeID : Int) (msg : String)
  | plain (msg : String)
  deriving DecidableEq, Repr

/-- The method `err.Error()`. -/
def GoError.Error : GoError → String
  | .transportException _ msg => msg
  | .plain msg => msg

/-- The thrift constant `thrift.TIMED_OUT` of the transport exception types
(`UNKNOWN = 0, NOT_OPEN = 1, ALREADY_OPEN = 2, TIMED_OUT = 3, ...`). -/
def TIMED_OUT : Int := 3

/-- The constant `nebula.ErrorCode_SUCCEEDED`. -/
def ErrorCode_SUCCEEDED : Int := 0

/-- A `*nebula.Value`; the connection passes it on untouched. -/
structure Value where
  id : Nat
  deriving DecidableEq, Repr

/-- A `map[string]*nebula.Value`; `none` is the nil map. -/
abbrev Params := Option (List (String × Value))

/-- The response `graph.VerifyClientVersionResp`. -/
structure VerifyClientVersionResp where
  ErrorCode : Int
  ErrorMsg : String
  deriving DecidableEq, Repr

/-- The response `graph.AuthResponse`. -/
structure AuthResponse where
  ErrorCode : Int
  ErrorMsg : String
  SessionID : Int
  deriving DecidableEq, Repr

/-- The response `graph.ExecutionResponse`; the connection passes it on untouched. -/
structure ExecutionResponse where
  ErrorCode : Int
  payload : Nat
  deriving DecidableEq, Repr

/-- The identity of a `*graph.GraphServiceClient` (a pointer). -/
abbrev ClientId := Nat

/-- One call made by the connection to a collaborator. `Open` records whether
the transport reported success, since that decides the transport's state. -/
inductive Event where
  | NewSSLSocketTimeout (addr : String) (cfg : TlsConfig) (timeout : Duration)
  | NewSocket (addr : String) (timeout : Duration)
  | NewGraphServiceClientFactory (g : ClientId) (bufferSize : Nat) (frameMaxLength : Nat)
  | Open (g : ClientId) (ok : Bool)
  | IsOpen (g : ClientId)
  | VerifyClientVersion (g : ClientId)
  | Authenticate (g : ClientId) (username password : String)
  | ExecuteWithParameter (g : ClientId) (sessionID : Int) (stmt : String) (params : Params)
  | Signout (g : ClientId) (sessionID : Int)
  | Close (g : ClientId)
  deriving DecidableEq, Repr

/-- The collaborators of the connection: socket construction, the generated
client stubs, and the clock.  Each answers from a hidden state and moves it. -/
structure Env (σ : Type) where
  now : σ → Time × σ
  newSSLSocketTimeout : σ → String → TlsConfig → Duration → Option GoError × σ
  newSocket : σ → String → Duration → Option GoError × σ
  clientOpen : σ → ClientId → Option GoError × σ
  isOpen : σ → ClientId → Bool × σ
  verifyClientVersion : σ → ClientId → (Option VerifyClientVersionResp × Option GoError) × σ
  authenticate : σ → ClientId → String → String → (Option AuthResponse × Option GoError) × σ
  executeWithParameter : σ → ClientId → Int → String → Params →
    (Option ExecutionResponse × Option GoError) × σ
  signout : σ → ClientId → Int → Option GoError × σ
  close : σ → ClientId → Option GoError × σ

/-- Everything outside the connection object: the collaborators' hidden state,
the calls made so far, and the next fresh client pointer. -/
structure World (σ : Type) where
  env : σ
  trace : List Event
  nextClient : ClientId

/-- Perform one collaborator call: advance the hidden state and log the call. -/
def World.call {σ α : Type} (w : World σ) (f : σ → α × σ) (e : α → Event) : α × World σ :=
  ((f w.env).1, { w with env := (f w.env).2, trace := w.trace ++ [e (f w.env).1] })

/-- The struct `connection` of `connection.go`. `graph = none` is the nil pointer. -/
structure connection where
  severAddress : HostAddress
  timeout : Duration
  returnedAt : Time
  sslConfig : Option TlsConfig
  graph : Option ClientId
  deriving DecidableEq, Repr

/-- A connection together with its surroundings. -/
abbrev State (σ : Type) := connection × World σ

/-! ## `connection.go` -/

/-- The function `net.JoinHostPort`: a host containing a colon is bracketed. -/
def JoinHostPort (host port : String) : String :=
  if host.contains ':' then "[" ++ host ++ "]:" ++ port else host ++ ":" ++ port

/-- The function `strconv.Itoa`. -/
def Itoa (n : Int) : String := toString n

/-- The function `newConnection`: a closed connection bound to an endpoint. -/
def newConnection {σ : Type} (E : Env σ) (w : World σ) (severAddress : HostAddress) : State σ :=
  ({ severAddress := severAddress
     timeout := 0 * 1000000
     returnedAt := (E.now w.env).1
     sslConfig := none
     graph := none },
   { w with env := (E.now w.env).2 })

/-- The method `close`: `cn.graph.Close()`.  With `cn.graph` nil there is no
client to close: the generated `Close` reaches its transport through the
receiver (`client.CC.Close()`), which is a nil pointer dereference. -/
def close {σ : Type} (E : Env σ) (cn : connection) (w : World σ) : Option (State σ) :=
  match cn.graph with
  | none => none
  | some g => some (cn, (w.call (fun s => E.close s g) (fun _ => Event.Close g)).2)

/-- The method `verifyClientVersion`. -/
def verifyClientVersion {σ : Type} (E : Env σ) (cn : connection) (w : World σ) :
    Option (Option GoError × State σ) :=
  match cn.graph with
  | none => none
  | some g =>
    let r := w.call (fun s => E.verifyClientVersion s g) (fun _ => Event.VerifyClientVersion g)
    match r.1.2 with
    | some err =>
      match close E cn r.2 with
      | none => none
      | some st => some (some (.plain ("failed to verify client version: " ++ err.Error)), st)
    | none =>
      match r.1.1 with
      | none => none
      | some resp =>
        if resp.ErrorCode ≠ ErrorCode_SUCCEEDED then
          some (some (.plain ("incompatible version between client and server: " ++ resp.ErrorMsg)),
            cn, r.2)
        else some (none, cn, r.2)

/-- The socket constructor chosen by `open`: TLS when `sslConfig` is not nil. -/
def newSock {σ : Type} (E : Env σ) (w : World σ) (newAdd : String) (timeout : Duration)
    (sslConfig : Option TlsConfig) : Option GoError × World σ :=
  match sslConfig with
  | some cfg =>
    w.call (fun s => E.newSSLSocketTimeout s newAdd cfg timeout)
      (fun _ => Event.NewSSLSocketTimeout newAdd cfg timeout)
  | none =>
    w.call (fun s => E.newSocket s newAdd timeout) (fun _ => Event.NewSocket newAdd timeout)

/-- The method `open` up to its last statement (lines 45 to 73): the socket, the
framed transport, the client bound to it, `Open` and `IsOpen`.  The result is
the error `open` returns there, or `none` with the state in which
`verifyClientVersion` is called. -/
def openTransport {σ : Type} (E : Env σ) (cn : connection) (w : World σ)
    (hostAddress : HostAddress) (timeout : Duration) (sslConfig : Option TlsConfig) :
    Option GoError × State σ :=
  let ip := hostAddress.Host
  let port := hostAddress.Port
  let newAdd := JoinHostPort ip (Itoa port)
  let cn := { cn with timeout := timeout }
  let bufferSize := 128 <<< 10
  let frameMaxLength := 4294967295
  let s := newSock E w newAdd timeout sslConfig
  match s.1 with
  | some err =>
    (some (.plain ("failed to create a net.Conn-backed Transport,: " ++ err.Error)), cn, s.2)
  | none =>
    let g := s.2.nextClient
    let w1 : World σ :=
      { s.2 with
        trace := s.2.trace ++ [Event.NewGraphServiceClientFactory g bufferSize frameMaxLength]
        nextClient := g + 1 }
    let cn := { cn with graph := some g }
    let o := w1.call (fun s => E.clientOpen s g) (fun r => Event.Open g r.isNone)
    match o.1 with
    | some err => (some (.plain ("failed to open transport, error: " ++ err.Error)), cn, o.2)
    | none =>
      let i := o.2.call (fun s => E.isOpen s g) (fun _ => Event.IsOpen g)
      if !i.1 then (some (.plain "transport is off"), cn, i.2)
      else (none, cn, i.2)

/-- The method `open`: the transport part, then `return cn.verifyClientVersion()`. -/
def «open» {σ : Type} (E : Env σ) (cn : connection) (w : World σ) (hostAddress : HostAddress)
    (timeout : Duration) (sslConfig : Option TlsConfig) : Option (Option GoError × State σ) :=
  match openTransport E cn w hostAddress timeout sslConfig with
  | (some err, st) => some (some err, st)
  | (none, st) => verifyClientVersion E st.1 st.2

/-- The method `reopen`: `close` followed by `open` on the stored fields. -/
def reopen {σ : Type} (E : Env σ) (cn : connection) (w : World σ) :
    Option (Option GoError × State σ) :=
  match close E cn w with
  | none => none
  | some st => «open» E st.1 st.2 st.1.severAddress st.1.timeout st.1.sslConfig

/-- The method `authenticate`. -/
def authenticate {σ : Type} (E : Env σ) (cn : connection) (w : World σ)
    (username password : String) :
    Option ((Option AuthResponse × Option GoError) × State σ) :=
  match cn.graph with
  | none => none
  | some g =>
    let r := w.call (fun s => E.authenticate s g username password)
      (fun _ => Event.Authenticate g username password)
    match r.1.2 with
    | some err0 =>
      let err := GoError.plain ("authentication fails, " ++ err0.Error)
      let c := r.2.call (fun s => E.close s g) (fun _ => Event.Close g)
      let err := match c.1 with
        | some e => GoError.plain ("fail to close transport, error: " ++ e.Error)
        | none => err
      some ((none, some err), cn, c.2)
    | none =>
      match r.1.1 with
      | none => none
      | some resp =>
        if resp.ErrorCode ≠ ErrorCode_SUCCEEDED then
          some ((none, some (.plain ("fail to authenticate, error: " ++ resp.ErrorMsg))), cn, r.2)
        else some ((some resp, none), cn, r.2)

/-- The stub call `cn.graph.ExecuteWithParameter(sessionID, []byte(stmt), params)`. -/
def rpcExecute {σ : Type} (E : Env σ) (g : ClientId) (w : World σ) (sessionID : Int)
    (stmt : String) (params : Params) :
    (Option ExecutionResponse × Option GoError) × World σ :=
  w.call (fun s => E.executeWithParameter s g sessionID stmt params)
    (fun _ => Event.ExecuteWithParameter g sessionID stmt params)

/-- The method `executeWithParameter`. -/
def executeWithParameter {σ : Type} (E : Env σ) (cn : connection) (w : World σ)
    (sessionID : Int) (stmt : String) (params : Params) :
    Option ((Option ExecutionResponse × Option GoError) × State σ) :=
  match cn.graph with
  | none => none
  | some g =>
    let r := rpcExecute E g w sessionID stmt params
    match r.1.2 with
    | some (.transportException typeID _) =>
      if typeID = TIMED_OUT then
        match reopen E cn r.2 with
        | none => none
        | some (some reopenErr, st) => some ((none, some reopenErr), st)
        | some (none, cn2, w2) =>
          match cn2.graph with
          | none => none
          | some g2 =>
            let r2 := rpcExecute E g2 w2 sessionID stmt params
            some (r2.1, cn2, r2.2)
      else some (r.1, cn, r.2)
    | _ => some (r.1, cn, r.2)

/-- The method `execute`: no parameters. -/
def execute {σ : Type} (E : Env σ) (cn : connection) (w : World σ) (sessionID : Int)
    (stmt : String) : Option ((Option ExecutionResponse × Option GoError) × State σ) :=
  executeWithParameter E cn w sessionID stmt (some [])

/-- The method `ping`: `YIELD 1` on session 0 through `execute`; true when no error came back. -/
def ping {σ : Type} (E : Env σ) (cn : connection) (w : World σ) : Option (Bool × State σ) :=
  (execute E cn w 0 "YIELD 1").map (fun r => (r.1.2.isNone, r.2))

/-- The method `pingWithParameter`: the same probe with a nil parameter map. -/
def pingWithParameter {σ : Type} (E : Env σ) (cn : connection) (w : World σ) :
    Option (Bool × State σ) :=
  (executeWithParameter E cn w 0 "YIELD 1" none).map (fun r => (r.1.2.isNone, r.2))

/-- The method `signOut`. -/
def signOut {σ : Type} (E : Env σ) (cn : connection) (w : World σ) (sessionID : Int) :
    Option (Option GoError × State σ) :=
  match cn.graph with
  | none => none
  | some g =>
    let r := w.call (fun s => E.signout s g sessionID) (fun _ => Event.Signout g sessionID)
    some (r.1, cn, r.2)

/-- The method `release`: stamps `returnedAt` with the clock. -/
def release {σ : Type} (E : Env σ) (cn : connection) (w : World σ) : State σ :=
  ({ cn with returnedAt := (E.now w.env).1 }, { w with env := (E.now w.env).2 })

/-! ## Reading the trace -/

/-- How one call moves the state of the transport behind client `g`: a
successful `Open` opens it, a `Close` closes it, nothing else touches it. -/
def transportStep (g : ClientId) (st : Bool) : Event → Bool
  | .Open g1 ok => if g1 = g ∧ ok = true then true else st
  | .Close g1 => if g1 = g then false else st
  | _ => st

/-- Whether the transport behind client `g` is open after the calls of a trace;
a transport starts out closed. -/
def transportOpen (g : ClientId) (tr : List Event) : Bool :=
  tr.foldl (transportStep g) false

/-- The connection is in the open state: it holds a client whose transport is open. -/
def isOpen {σ : Type} (s : State σ) : Bool :=
  match s.1.graph with
  | none => false
  | some g => transportOpen g s.2.trace

/-- The call is an `ExecuteWithParameter` RPC. -/
def Event.isExecute : Event → Bool
  | .ExecuteWithParameter _ _ _ _ => true
  | _ => false

/-- The call closes a transport. -/
def Event.isClose : Event → Bool
  | .Close _ => true
  | _ => false

/-- The call constructs a socket, plain or TLS. -/
def Event.isNewSock : Event → Bool
  | .NewSocket _ _ => true
  | .NewSSLSocketTimeout _ _ _ => true
  | _ => false

/-- The call binds a fresh RPC client. -/
def Event.isFactory : Event → Bool
  | .NewGraphServiceClientFactory _ _ _ => true
  | _ => false

/-- The socket construction `open` logs for an endpoint, timeout and SSL configuration. -/
def sockEvent (hostAddress : HostAddress) (timeout : Duration) (sslConfig : Option TlsConfig) :
    Event :=
  match sslConfig with
  | some cfg => .NewSSLSocketTimeout (JoinHostPort hostAddress.Host (Itoa hostAddress.Port)) cfg timeout
  | none => .NewSocket (JoinHostPort hostAddress.Host (Itoa hostAddress.Port)) timeout

/-- The calls of one `reopen` that succeeds, on a connection holding client `g`
when `g2` is the next fresh client. -/
def reopenCalls (cn : connection) (g g2 : ClientId) : List Event :=
  [ .Close g, sockEvent cn.severAddress cn.timeout cn.sslConfig,
    .NewGraphServiceClientFactory g2 (128 <<< 10) 4294967295,
    .Open g2 true, .IsOpen g2, .VerifyClientVersion g2 ]

/-! ## Sequences of operations -/

/-- The operations a caller may apply to a connection. -/
inductive Op where
  | «open» (hostAddress : HostAddress) (timeout : Duration) (sslConfig : Option TlsConfig)
  | reopen
  | authenticate (username password : String)
  | executeWithParameter (sessionID : Int) (stmt : String) (params : Params)
  | signOut (sessionID : Int)
  | release
  | close

/-- Apply one operation; `none` when it panics. -/
def Op.run {σ : Type} (E : Env σ) (op : Op) (s : State σ) : Option (State σ) :=
  match op with
  | .open h t c => (NebulaGo.open E s.1 s.2 h t c).map (fun r => r.2)
  | .reopen => (NebulaGo.reopen E s.1 s.2).map (fun r => r.2)
  | .authenticate u p => (NebulaGo.authenticate E s.1 s.2 u p).map (fun r => r.2)
  | .executeWithParameter i q ps =>
    (NebulaGo.executeWithParameter E s.1 s.2 i q ps).map (fun r => r.2)
  | .signOut i => (NebulaGo.signOut E s.1 s.2 i).map (fun r => r.2)
  | .release => some (NebulaGo.release E s.1 s.2)
  | .close => NebulaGo.close E s.1 s.2

/-- Apply a sequence of operations, left to right. -/
def runOps {σ : Type} (E : Env σ) : List Op → State σ → Option (State σ)
  | [], s => some s
  | op :: ops, s =>
    match op.run E s with
    | none => none
    | some s1 => runOps E ops s1

/-- From `s` to `s1` the trace only grew, and either the client stayed the same
(with nothing but socket constructions logged when there was none) or a
client was bound by a factory call. -/
def Grows {σ : Type} (s s1 : State σ) : Prop :=
  ∃ evs, s1.2.trace = s.2.trace ++ evs ∧
    ((s1.1.graph = s.1.graph ∧ (s.1.graph = none → ∀ e ∈ evs, e.isNewSock = true)) ∨
     (s1.1.graph ≠ none ∧ ∃ e ∈ evs, e.isFactory = true))

/-- A world in which nothing has been called yet. -/
def World.fresh {σ : Type} (e : σ) : World σ := { env := e, trace := [], nextClient := 0 }

/-! ## A scripted server, for concrete runs -/

/-- Replies of a simulated server; each may depend on the number of
`ExecuteWithParameter` calls answered so far. -/
structure Scenario where
  sock : Nat → Option GoError
  openErr : Nat → Option GoError
  up : Nat → Bool
  verify : Nat → Option VerifyClientVersionResp × Option GoError
  auth : Nat → Option AuthResponse × Option GoError
  exec : Nat → Option ExecutionResponse × Option GoError
  closeErr : Nat → Option GoError

/-- The environment that plays a scenario; its state counts the executed statements. -/
def scripted (sc : Scenario) : Env Nat where
  now := fun n => (0, n)
  newSSLSocketTimeout := fun n _ _ _ => (sc.sock n, n)
  newSocket := fun n _ _ => (sc.sock n, n)
  clientOpen := fun n _ => (sc.openErr n, n)
  isOpen := fun n _ => (sc.up n, n)
  verifyClientVersion := fun n _ => (sc.verify n, n)
  authenticate := fun n _ _ _ => (sc.auth n, n)
  executeWithParameter := fun n _ _ _ _ => (sc.exec n, n + 1)
  signout := fun n _ _ => (none, n)
  close := fun n _ => (sc.closeErr n, n)

/-- A server on which every call succeeds. -/
def healthy : Scenario where
  sock := fun _ => none
  openErr := fun _ => none
  up := fun _ => true
  verify := fun _ => (some { ErrorCode := 0, ErrorMsg := "" }, none)
  auth := fun _ => (some { ErrorCode := 0, ErrorMsg := "", SessionID := 7 }, none)
  exec := fun n => (some { ErrorCode := 0, payload := n }, none)
  closeErr := fun _ => none

/-- The timeout error of the transport. -/
def timedOut : GoError := .transportException TIMED_OUT "i/o timeout"

/-- A server whose first statement times out. -/
def timeoutOnce : Scenario :=
  { healthy with exec := fun n => if n = 0 then (none, some timedOut) else healthy.exec n }

/-- A server on which every statement times out. -/
def timeoutAlways : Scenario := { healthy with exec := fun _ => (none, some timedOut) }

/-- A server whose first statement times out and that refuses new sockets afterwards. -/
def timeoutThenDown : Scenario :=
  { timeoutOnce with sock := fun n => if n = 0 then none else some (.plain "connection refused") }

/-- A server whose statements fail with a transport error that is not a timeout. -/
def brokenPipe : Scenario :=
  { healthy with exec := fun _ => (none, some (.transportException 1 "not open")) }

/-- A server whose `Authenticate` call fails. -/
def authDown : Scenario := { healthy with auth := fun _ => (none, some (.plain "EOF")) }

/-- A server that rejects the credentials. -/
def authRejected : Scenario :=
  { healthy with
    auth := fun _ =>
      (some { ErrorCode := -1001, ErrorMsg := "Bad username/password", SessionID := 0 }, none) }

/-- A server whose `VerifyClientVersion` call fails. -/
def verifyDown : Scenario := { healthy with verify := fun _ => (none, some (.plain "EOF")) }

/-- A server that reports an incompatible client version. -/
def verifyRejected : Scenario :=
  { healthy with verify := fun _ => (some { ErrorCode := -1, ErrorMsg := "version mismatch" }, none) }

/-- The endpoint used in the concrete runs. -/
def localhost : HostAddress := { Host := "127.0.0.1", Port := 9669 }

/-- A connection bound to `localhost` that holds client `0`. -/
def bound : connection :=
  { severAddress := localhost, timeout := 1000, returnedAt := 0, sslConfig := none, graph := some 0 }

/-- The world after `bound` was opened against a healthy server: client `0` is
bound and its transport is open. -/
def boundWorld : World Nat :=
  { env := 0
    trace := [sockEvent localhost 1000 none,
      .NewGraphServiceClientFactory 0 (128 <<< 10) 4294967295,
      .Open 0 true, .IsOpen 0, .VerifyClientVersion 0]
    nextClient := 1 }

/-- A connection made by `newConnection` for `localhost`, before any `open`. -/
def unopened (sc : Scenario) : State Nat := newConnection (scripted sc) (World.fresh 0) localhost

end NebulaGo

/-! ## `autopool/autopool.go` -/

namespace autopool

/-- A non-nil `*T`: the index of an object in the heap. -/
abbrev Ptr := Nat

/-- A heap object: its value and whether the runtime holds a finalizer for it. -/
structure Obj (T : Type) where
  val : T
  finalizer : Bool

/-- A call to one of the pool owner's hooks. -/
inductive Call where
  | New
  | Reset (v : Ptr)
  deriving DecidableEq, Repr

/-- The part of the Go runtime the pool works on: the heap (objects are never
moved or collected here) and the calls made to the hooks so far. -/
structure Runtime (T : Type) where
  heap : List (Obj T)
  calls : List Call

/-- The struct `AutoPool[T]`.  `pool` holds the contents of the `sync.Pool`;
`New` is a constructor, given by the value of the fresh object it returns;
`Reset` is given by what it does to the object it is handed. -/
structure AutoPool (T : Type) where
  pool : List Ptr
  New : Option (Unit → T)
  Reset : Option (T → T)

/-- The method `sync.Pool.Get` without a `New` of its own.  The pool selects an
arbitrary item, removes it and returns it, and it may ignore its contents
and return nil as if it were empty.  `pick` is the pool's choice: the index
of the item handed out, or an index past the end when nothing is handed out,
which is the only choice on an empty pool. -/
def syncPoolGet (pool : List Ptr) (pick : Nat) : Option Ptr × List Ptr :=
  match pool[pick]? with
  | none => (none, pool)
  | some v => (some v, pool.eraseIdx pick)

/-- The method `sync.Pool.Put`: adds the item; the pool does not look for duplicates. -/
def syncPoolPut (pool : List Ptr) (v : Ptr) : List Ptr := pool ++ [v]

/-- The function `runtime.SetFinalizer(v, f)`; `set = false` is `f = nil`.
The runtime aborts when `v` is not a heap object, and when a finalizer is set
on an object that already has one. -/
def SetFinalizer {T : Type} (rt : Runtime T) (v : Ptr) (set : Bool) : Option (Runtime T) :=
  match rt.heap[v]? with
  | none => none
  | some o =>
    if set then
      if o.finalizer then none
      else some { rt with heap := rt.heap.set v { o with finalizer := true } }
    else some { rt with heap := rt.heap.set v { o with finalizer := false } }

/-- Allocate a fresh object holding `x`: `new(T)` or the construction inside `New`. -/
def alloc {T : Type} (rt : Runtime T) (x : T) : Ptr × Runtime T :=
  (rt.heap.length, { rt with heap := rt.heap ++ [{ val := x, finalizer := false }] })

/-- The call `p.Reset(v)` of a hook `f`. -/
def callReset {T : Type} (rt : Runtime T) (f : T → T) (v : Ptr) : Runtime T :=
  { heap := rt.heap.modify (fun o => { o with val := f o.val }) v
    calls := rt.calls ++ [Call.Reset v] }

/-- The method `AutoPool.Get`; `pick` is the choice `sync.Pool.Get` makes,
`default` is the zero value of `T`, and the result `none` is an abort of the
runtime in `SetFinalizer`. -/
def Get {T : Type} [Inhabited T] (p : AutoPool T) (rt : Runtime T) (pick : Nat) :
    Option (Ptr × AutoPool T × Runtime T) :=
  let g := syncPoolGet p.pool pick
  let p1 := { p with pool := g.2 }
  let a : Ptr × Runtime T :=
    match g.1 with
    | some v0 => (v0, rt)
    | none =>
      match p.New with
      | some new => alloc { rt with calls := rt.calls ++ [Call.New] } (new ())
      | none => alloc rt default
  match SetFinalizer a.2 a.1 true with
  | none => none
  | some rt1 =>
    match p.Reset with
    | some f => some (a.1, p1, callReset rt1 f a.1)
    | none => some (a.1, p1, rt1)

/-- The method `AutoPool.Put`. -/
def Put {T : Type} (p : AutoPool T) (rt : Runtime T) (v : Ptr) :
    Option (AutoPool T × Runtime T) :=
  match SetFinalizer rt v false with
  | none => none
  | some rt1 => some ({ p with pool := syncPoolPut p.pool v }, rt1)

/-- A pool of counters whose `Reset` zeroes the counter. -/
def counters : AutoPool Nat := { pool := [], New := some (fun _ => 5), Reset := some (fun _ => 0) }

/-- A runtime with an empty heap. -/
def emptyRuntime : Runtime Nat := { heap := [], calls := [] }

end autopool

/-! ## Lemmas on the connection -/

namespace NebulaGo

theorem call_fst {σ α : Type} (w : World σ) (f : σ → α × σ) (e : α → Event) :
    (w.call f e).1 = (f w.env).1 := rfl

theorem call_trace {σ α : Type} (w : World σ) (f : σ → α × σ) (e : α → Event) :
    (w.call f e).2.trace = w.trace ++ [e (f w.env).1] := rfl

theorem call_nextClient {σ α : Type} (w : World σ) (f : σ → α × σ) (e : α → Event) :
    (w.call f e).2.nextClient = w.nextClient := rfl

theorem newSock_trace {σ : Type} (E : Env σ) (w : World σ) (h : HostAddress) (t : Duration)
    (c : Option TlsConfig) :
    (newSock E w (JoinHostPort h.Host (Itoa h.Port)) t c).2.trace = w.trace ++ [sockEvent h t c] := by
  cases c <;> rfl

theorem newSock_nextClient {σ : Type} (E : Env σ) (w : World σ) (a : String) (t : Duration)
    (c : Option TlsConfig) : (newSock E w a t c).2.nextClient = w.nextClient := by
  cases c <;> rfl

theorem sockEvent_isNewSock (a : HostAddress) (t : Duration) (c : Option TlsConfig) :
    (sockEvent a t c).isNewSock = true := by
  cases c <;> rfl

theorem sockEvent_isExecute (a : HostAddress) (t : Duration) (c : Option TlsConfig) :
    (sockEvent a t c).isExecute = false := by
  cases c <;> rfl

theorem sockEvent_isClose (a : HostAddress) (t : Duration) (c : Option TlsConfig) :
    (sockEvent a t c).isClose = false := by
  cases c <;> rfl

theorem sockEvent_isFactory (a : HostAddress) (t : Duration) (c : Option TlsConfig) :
    (sockEvent a t c).isFactory = false := by
  cases c <;> rfl

theorem transportStep_sockEvent (g : ClientId) (st : Bool) (a : HostAddress) (t : Duration)
    (c : Option TlsConfig) : transportStep g st (sockEvent a t c) = st := by
  cases c <;> rfl

theorem transportOpen_append (g : ClientId) (tr evs : List Event) :
    transportOpen g (tr ++ evs) = evs.foldl (transportStep g) (transportOpen g tr) := by
  simp [transportOpen, List.foldl_append]

theorem close_eq {σ : Type} (E : Env σ) (cn : connection) (w : World σ) (g : ClientId)
    (hg : cn.graph = some g) :
    close E cn w = some (cn, (w.call (fun s => E.close s g) (fun _ => Event.Close g)).2) := by
  simp [close, hg]

/-- The transport part of `open`, when it succeeds: the client is the next
fresh one and the calls are the socket, the factory, `Open` and `IsOpen`. -/
theorem openTransport_ok {σ : Type} (E : Env σ) (cn cn1 : connection) (w w1 : World σ)
    (a : HostAddress) (t : Duration) (c : Option TlsConfig)
    (h : openTransport E cn w a t c = (none, cn1, w1)) :
    cn1 = { cn with timeout := t, graph := some w.nextClient } ∧
    w1.trace = w.trace ++ [sockEvent a t c,
      .NewGraphServiceClientFactory w.nextClient (128 <<< 10) 4294967295,
      .Open w.nextClient true, .IsOpen w.nextClient] ∧
    w1.nextClient = w.nextClient + 1 := by
  unfold openTransport at h
  simp only [] at h
  split at h
  · simp at h
  · split at h
    · simp at h
    · rename_i ho
      split at h
      · simp at h
      · simp only [Prod.mk.injEq, true_and] at h
        obtain ⟨rfl, rfl⟩ := h
        rw [call_fst] at ho
        simp only [newSock_nextClient] at ho
        refine ⟨by rw [newSock_nextClient], ?_, ?_⟩
        · simp only [call_trace, call_fst, newSock_trace, newSock_nextClient, List.append_assoc,
            List.singleton_append, List.cons_append, List.nil_append]
          simp [ho]
        · simp [call_nextClient, newSock_nextClient]

/-- The transport part of `open`, whatever its result: it keeps the endpoint and
the SSL field, stores the timeout, and either stops at the socket with the
client untouched or binds the next fresh client. -/
theorem openTransport_spec {σ : Type} (E : Env σ) (cn : connection) (w : World σ)
    (a : HostAddress) (t : Duration) (c : Option TlsConfig) :
    ∃ evs, (openTransport E cn w a t c).2.2.trace = w.trace ++ evs ∧
      (∀ e ∈ evs, e.isExecute = false ∧ e.isClose = false) ∧
      (((openTransport E cn w a t c).2.1 = { cn with timeout := t } ∧ evs = [sockEvent a t c] ∧
          (openTransport E cn w a t c).1 ≠ none) ∨
       ((openTransport E cn w a t c).2.1 = { cn with timeout := t, graph := some w.nextClient } ∧
          Event.NewGraphServiceClientFactory w.nextClient (128 <<< 10) 4294967295 ∈ evs)) := by
  unfold openTransport
  simp only []
  split
  · refine ⟨[sockEvent a t c], by rw [newSock_trace], ?_, Or.inl ⟨rfl, rfl, by simp⟩⟩
    intro e he
    simp only [List.mem_singleton] at he
    subst he
    exact ⟨sockEvent_isExecute _ _ _, sockEvent_isClose _ _ _⟩
  · split
    · refine ⟨[sockEvent a t c, .NewGraphServiceClientFactory w.nextClient (128 <<< 10) 4294967295,
        .Open w.nextClient (E.clientOpen (newSock E w (JoinHostPort a.Host (Itoa a.Port)) t c).2.env
          w.nextClient).1.isNone], ?_, ?_, Or.inr ⟨by rw [newSock_nextClient], by simp⟩⟩
      · simp only [call_trace, newSock_trace, newSock_nextClient, List.append_assoc,
          List.singleton_append, List.cons_append, List.nil_append]
      · intro e he
        simp only [List.mem_cons, List.mem_singleton, List.not_mem_nil, or_false] at he
        rcases he with rfl | rfl | rfl
        · exact ⟨sockEvent_isExecute _ _ _, sockEvent_isClose _ _ _⟩
        · exact ⟨rfl, rfl⟩
        · exact ⟨rfl, rfl⟩
    · have key : ∃ evs, ((({ (newSock E w (JoinHostPort a.Host (Itoa a.Port)) t c).2 with
            trace := (newSock E w (JoinHostPort a.Host (Itoa a.Port)) t c).2.trace ++
              [Event.NewGraphServiceClientFactory
                (newSock E w (JoinHostPort a.Host (Itoa a.Port)) t c).2.nextClient (128 <<< 10)
                4294967295]
            nextClient := (newSock E w (JoinHostPort a.Host (Itoa a.Port)) t c).2.nextClient + 1
            } : World σ).call
            (fun s => E.clientOpen s (newSock E w (JoinHostPort a.Host (Itoa a.Port)) t c).2.nextClient)
            (fun r => Event.Open (newSock E w (JoinHostPort a.Host (Itoa a.Port)) t c).2.nextClient
              r.isNone)).2.call
            (fun s => E.isOpen s (newSock E w (JoinHostPort a.Host (Itoa a.Port)) t c).2.nextClient)
            (fun _ => Event.IsOpen (newSock E w (JoinHostPort a.Host (Itoa a.Port)) t c).2.nextClient)).2.trace
            = w.trace ++ evs ∧ (∀ e ∈ evs, e.isExecute = false ∧ e.isClose = false) ∧
            Event.NewGraphServiceClientFactory w.nextClient (128 <<< 10) 4294967295 ∈ evs := by
        refine ⟨[sockEvent a t c, .NewGraphServiceClientFactory w.nextClient (128 <<< 10) 4294967295,
          .Open w.nextClient (E.clientOpen (newSock E w (JoinHostPort a.Host (Itoa a.Port)) t c).2.env
            w.nextClient).1.isNone, .IsOpen w.nextClient], ?_, ?_, by simp⟩
        · simp only [call_trace, newSock_trace, newSock_nextClient, List.append_assoc,
            List.singleton_append, List.cons_append, List.nil_append]
        · intro e he
          simp only [List.mem_cons, List.mem_singleton, List.not_mem_nil, or_false] at he
          rcases he with rfl | rfl | rfl | rfl
          · exact ⟨sockEvent_isExecute _ _ _, sockEvent_isClose _ _ _⟩
          · exact ⟨rfl, rfl⟩
          · exact ⟨rfl, rfl⟩
          · exact ⟨rfl, rfl⟩
      obtain ⟨evs, h1, h2, h3⟩ := key
      split
      · exact ⟨evs, h1, h2, Or.inr ⟨by rw [newSock_nextClient], h3⟩⟩
      · exact ⟨evs, h1, h2, Or.inr ⟨by rw [newSock_nextClient], h3⟩⟩

end NebulaGo

namespace NebulaGo

/-- The handshake when the `VerifyClientVersion` call itself fails: the
transport is closed and the error is returned. -/
theorem verifyClientVersion_err {σ : Type} (E : Env σ) (cn : connection) (w : World σ)
    (g : ClientId) (e : GoError) (hg : cn.graph = some g)
    (he : (E.verifyClientVersion w.env g).1.2 = some e) :
    verifyClientVersion E cn w =
      some (some (.plain ("failed to verify client version: " ++ e.Error)), cn,
        ((w.call (fun s => E.verifyClientVersion s g) (fun _ => Event.VerifyClientVersion g)).2.call
          (fun s => E.close s g) (fun _ => Event.Close g)).2) := by
  unfold verifyClientVersion
  simp only [hg, call_fst, he, close]

/-- The handshake when the call succeeds and carries a response: only the
status decides, and nothing is closed. -/
theorem verifyClientVersion_resp {σ : Type} (E : Env σ) (cn : connection) (w : World σ)
    (g : ClientId) (resp : VerifyClientVersionResp) (hg : cn.graph = some g)
    (he : (E.verifyClientVersion w.env g).1 = (some resp, none)) :
    verifyClientVersion E cn w =
      some (if resp.ErrorCode ≠ ErrorCode_SUCCEEDED then
          some (.plain ("incompatible version between client and server: " ++ resp.ErrorMsg))
        else none, cn,
        (w.call (fun s => E.verifyClientVersion s g) (fun _ => Event.VerifyClientVersion g)).2) := by
  unfold verifyClientVersion
  simp only [hg, call_fst, he]
  split <;> rfl

/-- The handshake, whatever its result: the connection object is untouched and
the calls are `VerifyClientVersion`, followed by a `Close` only on an error. -/
theorem verifyClientVersion_spec {σ : Type} (E : Env σ) (cn cn2 : connection) (w w2 : World σ)
    (g : ClientId) (r : Option GoError) (hg : cn.graph = some g)
    (h : verifyClientVersion E cn w = some (r, cn2, w2)) :
    cn2 = cn ∧ w2.nextClient = w.nextClient ∧
    ((r = none ∧ w2.trace = w.trace ++ [Event.VerifyClientVersion g]) ∨
     (r ≠ none ∧ (w2.trace = w.trace ++ [Event.VerifyClientVersion g] ∨
       w2.trace = w.trace ++ [Event.VerifyClientVersion g, Event.Close g]))) := by
  rcases hv : (E.verifyClientVersion w.env g).1 with ⟨resp, err⟩
  cases err with
  | some e =>
    rw [verifyClientVersion_err E cn w g e hg (by rw [hv])] at h
    simp only [Option.some.injEq, Prod.mk.injEq] at h
    obtain ⟨rfl, rfl, rfl⟩ := h
    refine ⟨rfl, rfl, Or.inr ⟨by simp, Or.inr ?_⟩⟩
    simp [call_trace]
  | none =>
    cases resp with
    | none =>
      unfold verifyClientVersion at h
      simp [hg, call_fst, hv] at h
    | some resp =>
      rw [verifyClientVersion_resp E cn w g resp hg hv] at h
      simp only [Option.some.injEq, Prod.mk.injEq] at h
      obtain ⟨rfl, rfl, rfl⟩ := h
      refine ⟨rfl, rfl, ?_⟩
      by_cases hc : resp.ErrorCode ≠ ErrorCode_SUCCEEDED
      · exact Or.inr ⟨by simp [hc], Or.inl (by simp [call_trace])⟩
      · exact Or.inl ⟨by simp [hc], by simp [call_trace]⟩

/-- The method `open` when it succeeds: the new client is the next fresh one,
and the calls are exactly socket, factory, `Open`, `IsOpen`, `VerifyClientVersion`. -/
theorem open_ok {σ : Type} (E : Env σ) (cn cn2 : connection) (w w2 : World σ)
    (a : HostAddress) (t : Duration) (c : Option TlsConfig)
    (h : «open» E cn w a t c = some (none, cn2, w2)) :
    cn2 = { cn with timeout := t, graph := some w.nextClient } ∧
    w2.trace = w.trace ++ [sockEvent a t c,
      .NewGraphServiceClientFactory w.nextClient (128 <<< 10) 4294967295,
      .Open w.nextClient true, .IsOpen w.nextClient, .VerifyClientVersion w.nextClient] ∧
    w2.nextClient = w.nextClient + 1 := by
  unfold «open» at h
  rcases ht : openTransport E cn w a t c with ⟨r, cn1, w1⟩
  rw [ht] at h
  cases r with
  | some e => simp at h
  | none =>
    obtain ⟨h1, h2, h3⟩ := openTransport_ok E cn cn1 w w1 a t c ht
    simp only [] at h
    have hg : cn1.graph = some w.nextClient := by rw [h1]
    obtain ⟨e1, e2, e3⟩ := verifyClientVersion_spec E cn1 cn2 w1 w2 w.nextClient none hg h
    refine ⟨by rw [e1, h1], ?_, by rw [e2, h3]⟩
    rcases e3 with ⟨_, e3⟩ | ⟨e3, _⟩
    · rw [e3, h2]; simp
    · exact absurd rfl e3

/-- The method `open`, whatever its result: it never executes a statement, it
keeps the endpoint and the SSL field, stores the timeout, and either stops at
the socket with the client untouched or binds the next fresh client. -/
theorem open_spec {σ : Type} (E : Env σ) (cn cn2 : connection) (w w2 : World σ)
    (a : HostAddress) (t : Duration) (c : Option TlsConfig) (r : Option GoError)
    (h : «open» E cn w a t c = some (r, cn2, w2)) :
    ∃ evs, w2.trace = w.trace ++ evs ∧ (∀ e ∈ evs, e.isExecute = false) ∧
      ((cn2 = { cn with timeout := t } ∧ evs = [sockEvent a t c] ∧ r ≠ none) ∨
       (cn2 = { cn with timeout := t, graph := some w.nextClient } ∧
          Event.NewGraphServiceClientFactory w.nextClient (128 <<< 10) 4294967295 ∈ evs)) := by
  unfold «open» at h
  obtain ⟨evs, h1, h2, h3⟩ := openTransport_spec E cn w a t c
  rcases ht : openTransport E cn w a t c with ⟨r1, cn1, w1⟩
  rw [ht] at h h1 h3
  simp only [] at h1 h3
  cases r1 with
  | some e =>
    simp only [Option.some.injEq, Prod.mk.injEq] at h
    obtain ⟨rfl, rfl, rfl⟩ := h
    refine ⟨evs, h1, fun e he => (h2 e he).1, ?_⟩
    rcases h3 with ⟨h3, h4, _⟩ | ⟨h3, h4⟩
    · exact Or.inl ⟨h3, h4, by simp⟩
    · exact Or.inr ⟨h3, h4⟩
  | none =>
    simp only [] at h
    rcases h3 with ⟨_, _, h5⟩ | ⟨h3, h4⟩
    · exact absurd rfl h5
    · have hg : cn1.graph = some w.nextClient := by rw [h3]
      obtain ⟨e1, _, e3⟩ := verifyClientVersion_spec E cn1 cn2 w1 w2 w.nextClient r hg h
      have hx : w2.trace = w.trace ++ (evs ++ [Event.VerifyClientVersion w.nextClient]) ∨
          w2.trace = w.trace ++
            (evs ++ [Event.VerifyClientVersion w.nextClient, Event.Close w.nextClient]) := by
        rcases e3 with ⟨_, e3⟩ | ⟨_, e3 | e3⟩
        · exact Or.inl (by rw [e3, h1, List.append_assoc])
        · exact Or.inl (by rw [e3, h1, List.append_assoc])
        · exact Or.inr (by rw [e3, h1, List.append_assoc])
      rcases hx with hx | hx
      · refine ⟨_, hx, ?_, Or.inr ⟨by rw [e1, h3], List.mem_append_left _ h4⟩⟩
        intro e he
        simp only [List.mem_append, List.mem_singleton] at he
        rcases he with he | rfl
        · exact (h2 e he).1
        · rfl
      · refine ⟨_, hx, ?_, Or.inr ⟨by rw [e1, h3], List.mem_append_left _ h4⟩⟩
        intro e he
        simp only [List.mem_append, List.mem_cons, List.mem_singleton, List.not_mem_nil,
          or_false] at he
        rcases he with he | rfl | rfl
        · exact (h2 e he).1
        · rfl
        · rfl

/-- The method `reopen` when it succeeds, on a connection holding client `g`. -/
theorem reopen_ok {σ : Type} (E : Env σ) (cn cn2 : connection) (w w2 : World σ) (g : ClientId)
    (hg : cn.graph = some g) (h : reopen E cn w = some (none, cn2, w2)) :
    cn2 = { cn with graph := some w.nextClient } ∧
    w2.trace = w.trace ++ reopenCalls cn g w.nextClient ∧
    w2.nextClient = w.nextClient + 1 := by
  unfold reopen at h
  rw [close_eq E cn w g hg] at h
  simp only [] at h
  obtain ⟨h1, h2, h3⟩ := open_ok E _ cn2 _ w2 _ _ _ h
  refine ⟨h1, ?_, h3⟩
  rw [h2]
  simp [call_trace, call_nextClient, reopenCalls]

/-- The method `reopen`, whatever its result: no statement is executed. -/
theorem reopen_no_execute {σ : Type} (E : Env σ) (cn cn2 : connection) (w w2 : World σ)
    (r : Option GoError) (h : reopen E cn w = some (r, cn2, w2)) :
    w2.trace.filter Event.isExecute = w.trace.filter Event.isExecute := by
  unfold reopen at h
  cases hg : cn.graph with
  | none => simp [close, hg] at h
  | some g =>
    rw [close_eq E cn w g hg] at h
    simp only [] at h
    obtain ⟨evs, h1, h2, _⟩ := open_spec E _ cn2 _ w2 _ _ _ r h
    rw [h1, call_trace, List.filter_append, List.filter_append]
    have : evs.filter Event.isExecute = [] := by
      rw [List.filter_eq_nil_iff]
      intro e he
      simp [h2 e he]
    rw [this]
    simp [Event.isExecute]

end NebulaGo

/-! ## The claims on `connection.go` -/

namespace NebulaGo

/-- C1: when the first `ExecuteWithParameter` call fails with a transport
timeout and the following `reopen` succeeds, `executeWithParameter` makes
exactly one `reopen` (one `Close`, one socket, one new client) and exactly two
`ExecuteWithParameter` calls, the second with the same session id, statement
and parameters on the new client, and returns the second call's response and
error as they are, a second timeout included. -/
theorem executeWithParameter_timeout_retry {σ : Type} (E : Env σ) (cn cn2 : connection)
    (w w2 : World σ) (g : ClientId) (sessionID : Int) (stmt : String) (params : Params)
    (msg : String) (hg : cn.graph = some g)
    (h1 : (rpcExecute E g w sessionID stmt params).1.2
      = some (.transportException TIMED_OUT msg))
    (hr : reopen E cn (rpcExecute E g w sessionID stmt params).2 = some (none, cn2, w2)) :
    executeWithParameter E cn w sessionID stmt params
      = some ((rpcExecute E w.nextClient w2 sessionID stmt params).1, cn2,
          (rpcExecute E w.nextClient w2 sessionID stmt params).2) ∧
    cn2 = { cn with graph := some w.nextClient } ∧
    (rpcExecute E w.nextClient w2 sessionID stmt params).2.trace
      = w.trace ++ ([Event.ExecuteWithParameter g sessionID stmt params]
          ++ reopenCalls cn g w.nextClient
          ++ [Event.ExecuteWithParameter w.nextClient sessionID stmt params]) ∧
    ([Event.ExecuteWithParameter g sessionID stmt params] ++ reopenCalls cn g w.nextClient
      ++ [Event.ExecuteWithParameter w.nextClient sessionID stmt params]).filter Event.isExecute
      = [Event.ExecuteWithParameter g sessionID stmt params,
          Event.ExecuteWithParameter w.nextClient sessionID stmt params] ∧
    (reopenCalls cn g w.nextClient).countP Event.isClose = 1 ∧
    (reopenCalls cn g w.nextClient).countP Event.isNewSock = 1 ∧
    (reopenCalls cn g w.nextClient).countP Event.isFactory = 1 := by
  obtain ⟨e1, e2, _⟩ := reopen_ok E cn cn2 _ w2 g hg hr
  have hn : (rpcExecute E g w sessionID stmt params).2.nextClient = w.nextClient := rfl
  rw [hn] at e1 e2
  have hg2 : cn2.graph = some w.nextClient := by rw [e1]
  refine ⟨?_, e1, ?_, ?_, ?_, ?_, ?_⟩
  · unfold executeWithParameter
    simp only [hg, h1, if_true, hr, hg2]
  · show w2.trace ++ _ = _
    rw [e2]
    show (w.trace ++ _) ++ _ ++ _ = _
    simp
  · cases hs : cn.sslConfig <;> simp [reopenCalls, sockEvent, hs, Event.isExecute]
  · cases hs : cn.sslConfig <;> simp [reopenCalls, sockEvent, hs, Event.isClose, List.countP_cons]
  · cases hs : cn.sslConfig <;>
      simp [reopenCalls, sockEvent, hs, Event.isNewSock, List.countP_cons]
  · cases hs : cn.sslConfig <;>
      simp [reopenCalls, sockEvent, hs, Event.isFactory, List.countP_cons]

/-- C1 on a simulated server: the statement times out once and then succeeds,
and on a server where every statement times out the second timeout is returned. -/
theorem executeWithParameter_timeout_retry_witness :
    (executeWithParameter (scripted timeoutOnce) bound boundWorld 5 "YIELD 1" none
      = some ((some { ErrorCode := 0, payload := 1 }, none), { bound with graph := some 1 },
          { env := 2
            trace := boundWorld.trace ++ [Event.ExecuteWithParameter 0 5 "YIELD 1" none] ++ reopenCalls bound 0 1
              ++ [Event.ExecuteWithParameter 1 5 "YIELD 1" none]
            nextClient := 2 })) ∧
    (executeWithParameter (scripted timeoutAlways) bound boundWorld 5 "YIELD 1" none
      = some ((none, some timedOut), { bound with graph := some 1 },
          { env := 2
            trace := boundWorld.trace ++ [Event.ExecuteWithParameter 0 5 "YIELD 1" none] ++ reopenCalls bound 0 1
              ++ [Event.ExecuteWithParameter 1 5 "YIELD 1" none]
            nextClient := 2 })) :=
  ⟨(executeWithParameter_timeout_retry (scripted timeoutOnce) bound { bound with graph := some 1 }
      boundWorld
      { env := 1
        trace := boundWorld.trace ++ [Event.ExecuteWithParameter 0 5 "YIELD 1" none] ++ reopenCalls bound 0 1
        nextClient := 2 }
      0 5 "YIELD 1" none "i/o timeout" rfl rfl rfl).1,
   (executeWithParameter_timeout_retry (scripted timeoutAlways) bound { bound with graph := some 1 }
      boundWorld
      { env := 1
        trace := boundWorld.trace ++ [Event.ExecuteWithParameter 0 5 "YIELD 1" none] ++ reopenCalls bound 0 1
        nextClient := 2 }
      0 5 "YIELD 1" none "i/o timeout" rfl rfl rfl).1⟩

/-- C2: when the first `ExecuteWithParameter` call succeeds, or fails with
anything but a transport timeout, `executeWithParameter` returns that call's
response and error unchanged, makes no other call (no reopen, no second
statement), and leaves the connection object and every transport's state as
they were. -/
theorem executeWithParameter_no_retry {σ : Type} (E : Env σ) (cn : connection) (w : World σ)
    (g : ClientId) (sessionID : Int) (stmt : String) (params : Params)
    (hg : cn.graph = some g)
    (hnt : ∀ msg, (rpcExecute E g w sessionID stmt params).1.2
      ≠ some (.transportException TIMED_OUT msg)) :
    executeWithParameter E cn w sessionID stmt params
      = some ((rpcExecute E g w sessionID stmt params).1, cn,
          (rpcExecute E g w sessionID stmt params).2) ∧
    (rpcExecute E g w sessionID stmt params).2.trace
      = w.trace ++ [Event.ExecuteWithParameter g sessionID stmt params] ∧
    (rpcExecute E g w sessionID stmt params).2.nextClient = w.nextClient ∧
    ∀ g1, transportOpen g1 (rpcExecute E g w sessionID stmt params).2.trace
      = transportOpen g1 w.trace := by
  refine ⟨?_, rfl, rfl, ?_⟩
  · unfold executeWithParameter
    simp only [hg]
    split
    · rename_i typeID m he
      split
      · rename_i ht
        rw [ht] at he
        exact absurd he (hnt m)
      · rfl
    · rfl
  · intro g1
    show transportOpen g1 (w.trace ++ _) = _
    rw [transportOpen_append]
    rfl

/-- C2 on simulated servers: a statement that succeeds, and one that fails with
a transport error other than a timeout. -/
theorem executeWithParameter_no_retry_witness :
    (executeWithParameter (scripted healthy) bound boundWorld 5 "YIELD 1" none
      = some ((some { ErrorCode := 0, payload := 0 }, none), bound,
          { env := 1, trace := boundWorld.trace ++ [Event.ExecuteWithParameter 0 5 "YIELD 1" none], nextClient := 1 })) ∧
    (executeWithParameter (scripted brokenPipe) bound boundWorld 5 "YIELD 1" none
      = some ((none, some (.transportException 1 "not open")), bound,
          { env := 1, trace := boundWorld.trace ++ [Event.ExecuteWithParameter 0 5 "YIELD 1" none], nextClient := 1 })) :=
  ⟨(executeWithParameter_no_retry (scripted healthy) bound boundWorld 0 5 "YIELD 1" none rfl
      (fun _ h => by cases h)).1,
   (executeWithParameter_no_retry (scripted brokenPipe) bound boundWorld 0 5 "YIELD 1" none rfl
      (fun _ h => by cases h)).1⟩

/-- C3: when the first `ExecuteWithParameter` call fails with a transport
timeout and `reopen` then fails, `executeWithParameter` returns no response
together with exactly the error of `reopen`, and the statement is not sent a
second time. -/
theorem executeWithParameter_reopen_fails {σ : Type} (E : Env σ) (cn cn2 : connection)
    (w w2 : World σ) (g : ClientId) (sessionID : Int) (stmt : String) (params : Params)
    (msg : String) (reopenErr : GoError) (hg : cn.graph = some g)
    (h1 : (rpcExecute E g w sessionID stmt params).1.2
      = some (.transportException TIMED_OUT msg))
    (hr : reopen E cn (rpcExecute E g w sessionID stmt params).2
      = some (some reopenErr, cn2, w2)) :
    executeWithParameter E cn w sessionID stmt params = some ((none, some reopenErr), cn2, w2) ∧
    w2.trace.filter Event.isExecute
      = w.trace.filter Event.isExecute ++ [Event.ExecuteWithParameter g sessionID stmt params] := by
  refine ⟨?_, ?_⟩
  · unfold executeWithParameter
    simp only [hg, h1, if_true, hr]
  · rw [reopen_no_execute E cn cn2 _ w2 _ hr]
    show (w.trace ++ _).filter _ = _
    simp [Event.isExecute]

/-- C3 on a simulated server that times out and then refuses new sockets. -/
theorem executeWithParameter_reopen_fails_witness :
    executeWithParameter (scripted timeoutThenDown) bound boundWorld 5 "YIELD 1" none
      = some ((none, some (.plain
          ("failed to create a net.Conn-backed Transport,: " ++ "connection refused"))), bound,
          { env := 1
            trace := boundWorld.trace ++ [Event.ExecuteWithParameter 0 5 "YIELD 1" none,
              Event.Close 0, sockEvent localhost 1000 none]
            nextClient := 1 }) :=
  (executeWithParameter_reopen_fails (scripted timeoutThenDown) bound bound boundWorld
    { env := 1
      trace := boundWorld.trace ++ [Event.ExecuteWithParameter 0 5 "YIELD 1" none,
        Event.Close 0, sockEvent localhost 1000 none]
      nextClient := 1 }
    0 5 "YIELD 1" none "i/o timeout"
    (.plain ("failed to create a net.Conn-backed Transport,: " ++ "connection refused"))
    rfl rfl rfl).1

end NebulaGo

namespace NebulaGo

/-- C4: on a connection holding a client, when the `Authenticate` call itself
fails `authenticate` returns an error and no response, and its last act is to
close the transport, which is closed on return; when the call succeeds and the
server reports a status other than success it returns an error carrying the
server's message, makes no `Close`, and leaves the transport as it was. -/
theorem authenticate_failure_modes {σ : Type} (E : Env σ) (cn : connection) (w : World σ)
    (g : ClientId) (username password : String) (hg : cn.graph = some g) :
    (∀ e, (E.authenticate w.env g username password).1.2 = some e →
      ∃ err w1, authenticate E cn w username password = some ((none, some err), cn, w1) ∧
        w1.trace = w.trace ++ [Event.Authenticate g username password, Event.Close g] ∧
        isOpen (cn, w1) = false) ∧
    (∀ resp, (E.authenticate w.env g username password).1 = (some resp, none) →
      resp.ErrorCode ≠ ErrorCode_SUCCEEDED →
      ∃ w1, authenticate E cn w username password
          = some ((none, some (.plain ("fail to authenticate, error: " ++ resp.ErrorMsg))),
              cn, w1) ∧
        w1.trace = w.trace ++ [Event.Authenticate g username password] ∧
        isOpen (cn, w1) = isOpen (cn, w)) := by
  constructor
  · intro e he
    have h : authenticate E cn w username password = some ((none, some
        (match (E.close (E.authenticate w.env g username password).2 g).1 with
          | some e1 => GoError.plain ("fail to close transport, error: " ++ e1.Error)
          | none => GoError.plain ("authentication fails, " ++ e.Error))), cn,
        ((w.call (fun s => E.authenticate s g username password)
          (fun _ => Event.Authenticate g username password)).2.call
          (fun s => E.close s g) (fun _ => Event.Close g)).2) := by
      unfold authenticate
      simp only [hg, call_fst, he]
      rfl
    refine ⟨_, _, h, ?_, ?_⟩
    · simp [call_trace]
    · simp only [isOpen, hg, call_trace, List.append_assoc, transportOpen_append]
      simp [transportStep]
  · intro resp hr hc
    have h : authenticate E cn w username password
        = some ((none, some (.plain ("fail to authenticate, error: " ++ resp.ErrorMsg))), cn,
          (w.call (fun s => E.authenticate s g username password)
            (fun _ => Event.Authenticate g username password)).2) := by
      unfold authenticate
      simp only [hg, call_fst, hr]
      rw [if_pos hc]
    refine ⟨_, h, ?_, ?_⟩
    · simp [call_trace]
    · simp only [isOpen, hg, call_trace, transportOpen_append]
      rfl

/-- C4 on simulated servers: a failing `Authenticate` call closes the open
transport, rejected credentials leave it open. -/
theorem authenticate_failure_modes_witness :
    (∃ err w1, authenticate (scripted authDown) bound boundWorld "root" "nebula"
        = some ((none, some err), bound, w1) ∧
      w1.trace = boundWorld.trace ++ [Event.Authenticate 0 "root" "nebula", Event.Close 0] ∧
      isOpen (bound, w1) = false) ∧
    (∃ w1, authenticate (scripted authRejected) bound boundWorld "root" "nebula"
        = some ((none, some (.plain ("fail to authenticate, error: " ++ "Bad username/password"))),
            bound, w1) ∧
      w1.trace = boundWorld.trace ++ [Event.Authenticate 0 "root" "nebula"] ∧
      isOpen (bound, w1) = isOpen (bound, boundWorld)) ∧
    isOpen (bound, boundWorld) = true :=
  ⟨(authenticate_failure_modes (scripted authDown) bound boundWorld 0 "root" "nebula" rfl).1
      (.plain "EOF") rfl,
   (authenticate_failure_modes (scripted authRejected) bound boundWorld 0 "root" "nebula" rfl).2
      { ErrorCode := -1001, ErrorMsg := "Bad username/password", SessionID := 0 } rfl
      (by decide),
   rfl⟩

end NebulaGo

namespace NebulaGo

/-- C5 fails as stated: against a server that reports an incompatible version,
`open` returns an error and the transport it opened is still open. -/
theorem open_rejected_version_left_open :
    ∃ err st, «open» (scripted verifyRejected) (unopened verifyRejected).1
        (unopened verifyRejected).2 localhost 1000 none = some (some err, st) ∧
      st.1.graph = some 0 ∧ isOpen st = true ∧
      st.2.trace.filter Event.isClose = [] :=
  ⟨.plain ("incompatible version between client and server: " ++ "version mismatch"),
    ({ severAddress := localhost, timeout := 1000, returnedAt := 0, sslConfig := none,
       graph := some 0 },
     { env := 0
       trace := [sockEvent localhost 1000 none,
         .NewGraphServiceClientFactory 0 (128 <<< 10) 4294967295,
         .Open 0 true, .IsOpen 0, .VerifyClientVersion 0]
       nextClient := 1 }),
    rfl, rfl, rfl, rfl⟩

/-- C5, amended: when the transport part of `open` succeeds and the handshake
fails, `open` returns an error; if the `VerifyClientVersion` call itself
failed, the transport has been closed when `open` returns; if the server
answered with a status other than success, no `Close` is made and the
transport is left open. -/
theorem open_handshake_failure {σ : Type} (E : Env σ) (cn cn1 : connection) (w w1 : World σ)
    (a : HostAddress) (t : Duration) (c : Option TlsConfig)
    (hT : openTransport E cn w a t c = (none, cn1, w1)) :
    (∀ e, (E.verifyClientVersion w1.env w.nextClient).1.2 = some e →
      ∃ w2, «open» E cn w a t c
          = some (some (.plain ("failed to verify client version: " ++ e.Error)), cn1, w2) ∧
        w2.trace = w1.trace
          ++ [Event.VerifyClientVersion w.nextClient, Event.Close w.nextClient] ∧
        isOpen (cn1, w2) = false) ∧
    (∀ resp, (E.verifyClientVersion w1.env w.nextClient).1 = (some resp, none) →
      resp.ErrorCode ≠ ErrorCode_SUCCEEDED →
      ∃ w2, «open» E cn w a t c
          = some (some (.plain
              ("incompatible version between client and server: " ++ resp.ErrorMsg)), cn1, w2) ∧
        w2.trace = w1.trace ++ [Event.VerifyClientVersion w.nextClient] ∧
        isOpen (cn1, w2) = true) := by
  obtain ⟨h1, h2, _⟩ := openTransport_ok E cn cn1 w w1 a t c hT
  have hg : cn1.graph = some w.nextClient := by rw [h1]
  constructor
  · intro e he
    have h : «open» E cn w a t c
        = some (some (.plain ("failed to verify client version: " ++ e.Error)), cn1,
          ((w1.call (fun s => E.verifyClientVersion s w.nextClient)
            (fun _ => Event.VerifyClientVersion w.nextClient)).2.call
            (fun s => E.close s w.nextClient) (fun _ => Event.Close w.nextClient)).2) := by
      unfold «open»
      rw [hT]
      exact verifyClientVersion_err E cn1 w1 w.nextClient e hg he
    refine ⟨_, h, ?_, ?_⟩
    · simp [call_trace]
    · simp only [isOpen, hg, call_trace, List.append_assoc, transportOpen_append]
      simp [transportStep]
  · intro resp hr hc
    have h : «open» E cn w a t c
        = some (some (.plain
            ("incompatible version between client and server: " ++ resp.ErrorMsg)), cn1,
          (w1.call (fun s => E.verifyClientVersion s w.nextClient)
            (fun _ => Event.VerifyClientVersion w.nextClient)).2) := by
      unfold «open»
      rw [hT]
      simp only []
      rw [verifyClientVersion_resp E cn1 w1 w.nextClient resp hg hr, if_pos hc]
    refine ⟨_, h, ?_, ?_⟩
    · simp [call_trace]
    · simp only [isOpen, hg, call_trace, h2, List.append_assoc, transportOpen_append]
      simp [transportStep, transportStep_sockEvent, List.foldl]

/-- C5, amended, on simulated servers: a failing handshake call closes the
transport, a reported incompatibility leaves it open. -/
theorem open_handshake_failure_witness :
    (∃ w2, «open» (scripted verifyDown) (unopened verifyDown).1 (unopened verifyDown).2
          localhost 1000 none
          = some (some (.plain ("failed to verify client version: " ++ "EOF")), bound, w2) ∧
        w2.trace = boundWorld.trace.take 4 ++ [Event.VerifyClientVersion 0, Event.Close 0] ∧
        isOpen (bound, w2) = false) ∧
    (∃ w2, «open» (scripted verifyRejected) (unopened verifyRejected).1
          (unopened verifyRejected).2 localhost 1000 none
          = some (some (.plain
              ("incompatible version between client and server: " ++ "version mismatch")),
              bound, w2) ∧
        w2.trace = boundWorld.trace.take 4 ++ [Event.VerifyClientVersion 0] ∧
        isOpen (bound, w2) = true) :=
  ⟨(open_handshake_failure (scripted verifyDown) (unopened verifyDown).1 bound
      (unopened verifyDown).2 { boundWorld with trace := boundWorld.trace.take 4 }
      localhost 1000 none rfl).1 (.plain "EOF") rfl,
   (open_handshake_failure (scripted verifyRejected) (unopened verifyRejected).1 bound
      (unopened verifyRejected).2 { boundWorld with trace := boundWorld.trace.take 4 }
      localhost 1000 none rfl).2 { ErrorCode := -1, ErrorMsg := "version mismatch" } rfl
      (by decide)⟩

/-- C6 fails on the code: `open` stores the timeout but not the SSL
configuration, so a connection opened over TLS is reopened over a plain
socket (`NewSocket`, where the first open called `NewSSLSocketTimeout`). -/
theorem reopen_after_tls_open_is_plain :
    (runOps (scripted healthy) [.open localhost 1000 (some { id := 1 }), .reopen]
        (unopened healthy)).map (fun s => (s.1.sslConfig, s.2.trace))
      = some (none,
        [ Event.NewSSLSocketTimeout (JoinHostPort "127.0.0.1" (Itoa 9669)) { id := 1 } 1000,
          .NewGraphServiceClientFactory 0 (128 <<< 10) 4294967295,
          .Open 0 true, .IsOpen 0, .VerifyClientVersion 0,
          .Close 0,
          Event.NewSocket (JoinHostPort "127.0.0.1" (Itoa 9669)) 1000,
          .NewGraphServiceClientFactory 1 (128 <<< 10) 4294967295,
          .Open 1 true, .IsOpen 1, .VerifyClientVersion 1 ]) :=
  rfl

/-- C7 fails on the code: `close` on a connection fresh from `newConnection`
dereferences the nil `graph` and panics. -/
theorem close_unopened_panics {σ : Type} (E : Env σ) (w : World σ) (severAddress : HostAddress) :
    (newConnection E w severAddress).1.graph = none ∧
    close E (newConnection E w severAddress).1 (newConnection E w severAddress).2 = none :=
  ⟨rfl, rfl⟩

end NebulaGo

namespace NebulaGo

theorem Grows.refl {σ : Type} (s : State σ) : Grows s s :=
  ⟨[], by simp, Or.inl ⟨rfl, fun _ e he => by simp at he⟩⟩

theorem Grows.trans {σ : Type} {s s1 s2 : State σ} (h1 : Grows s s1) (h2 : Grows s1 s2) :
    Grows s s2 := by
  obtain ⟨evs1, t1, c1⟩ := h1
  obtain ⟨evs2, t2, c2⟩ := h2
  refine ⟨evs1 ++ evs2, by rw [t2, t1, List.append_assoc], ?_⟩
  rcases c1 with ⟨g1, n1⟩ | ⟨g1, e, he, f1⟩
  · rcases c2 with ⟨g2, n2⟩ | ⟨g2, e, he, f2⟩
    · refine Or.inl ⟨by rw [g2, g1], fun hn e he => ?_⟩
      rcases List.mem_append.mp he with he | he
      · exact n1 hn e he
      · exact n2 (by rw [g1, hn]) e he
    · exact Or.inr ⟨g2, e, List.mem_append_right _ he, f2⟩
  · rcases c2 with ⟨g2, _⟩ | ⟨g2, e2, he2, f2⟩
    · exact Or.inr ⟨by rw [g2]; exact g1, e, List.mem_append_left _ he, f1⟩
    · exact Or.inr ⟨g2, e2, List.mem_append_right _ he2, f2⟩

/-- A step that keeps the connection object and needs a client. -/
theorem Grows.of_same {σ : Type} (cn : connection) (w w1 : World σ) (g : ClientId)
    (evs : List Event) (hg : cn.graph = some g) (ht : w1.trace = w.trace ++ evs) :
    Grows (cn, w) (cn, w1) :=
  ⟨evs, ht, Or.inl ⟨rfl, fun hn => by rw [hg] at hn; cases hn⟩⟩

theorem close_grows {σ : Type} (E : Env σ) (cn : connection) (w : World σ) (s1 : State σ)
    (h : close E cn w = some s1) : Grows (cn, w) s1 := by
  cases hg : cn.graph with
  | none => simp [close, hg] at h
  | some g =>
    rw [close_eq E cn w g hg] at h
    cases h
    exact Grows.of_same cn w _ g _ hg (call_trace _ _ _)

theorem open_grows {σ : Type} (E : Env σ) (cn : connection) (w : World σ) (a : HostAddress)
    (t : Duration) (c : Option TlsConfig) (r : Option GoError) (s1 : State σ)
    (h : «open» E cn w a t c = some (r, s1)) : Grows (cn, w) s1 := by
  obtain ⟨cn1, w1⟩ := s1
  obtain ⟨evs, h1, _, h3⟩ := open_spec E cn cn1 w w1 a t c r h
  refine ⟨evs, h1, ?_⟩
  rcases h3 with ⟨h3, h4, _⟩ | ⟨h3, h4⟩
  · refine Or.inl ⟨by rw [h3], fun _ e he => ?_⟩
    rw [h4, List.mem_singleton] at he
    rw [he]
    exact sockEvent_isNewSock _ _ _
  · exact Or.inr ⟨by rw [h3]; simp, _, h4, rfl⟩

theorem reopen_grows {σ : Type} (E : Env σ) (cn : connection) (w : World σ)
    (r : Option GoError) (s1 : State σ) (h : reopen E cn w = some (r, s1)) :
    Grows (cn, w) s1 := by
  unfold reopen at h
  cases hc : close E cn w with
  | none => rw [hc] at h; cases h
  | some st =>
    rw [hc] at h
    exact (close_grows E cn w st hc).trans (open_grows E _ _ _ _ _ r s1 h)

theorem authenticate_grows {σ : Type} (E : Env σ) (cn : connection) (w : World σ)
    (u p : String) (r : Option AuthResponse × Option GoError) (s1 : State σ)
    (h : authenticate E cn w u p = some (r, s1)) : Grows (cn, w) s1 := by
  unfold authenticate at h
  cases hg : cn.graph with
  | none => simp [hg] at h
  | some g =>
    simp only [hg] at h
    split at h
    · simp only [Option.some.injEq, Prod.mk.injEq] at h
      obtain ⟨_, rfl⟩ := h
      exact Grows.of_same cn w _ g _ hg (by rw [call_trace, call_trace, List.append_assoc])
    · split at h
      · cases h
      · split at h
        · simp only [Option.some.injEq, Prod.mk.injEq] at h
          obtain ⟨_, rfl⟩ := h
          exact Grows.of_same cn w _ g _ hg (call_trace _ _ _)
        · simp only [Option.some.injEq, Prod.mk.injEq] at h
          obtain ⟨_, rfl⟩ := h
          exact Grows.of_same cn w _ g _ hg (call_trace _ _ _)

theorem executeWithParameter_grows {σ : Type} (E : Env σ) (cn : connection) (w : World σ)
    (i : Int) (q : String) (ps : Params) (r : Option ExecutionResponse × Option GoError)
    (s1 : State σ) (h : executeWithParameter E cn w i q ps = some (r, s1)) :
    Grows (cn, w) s1 := by
  unfold executeWithParameter at h
  cases hg : cn.graph with
  | none => simp [hg] at h
  | some g =>
    simp only [hg] at h
    have first : Grows (cn, w) (cn, (rpcExecute E g w i q ps).2) :=
      Grows.of_same cn w _ g _ hg (call_trace _ _ _)
    split at h
    · split at h
      · split at h
        · cases h
        · rename_i e st hr
          simp only [Option.some.injEq, Prod.mk.injEq] at h
          obtain ⟨_, rfl⟩ := h
          exact first.trans (reopen_grows E cn _ _ _ hr)
        · rename_i cn2 w2 hr
          split at h
          · cases h
          · rename_i g2 hg2
            simp only [Option.some.injEq, Prod.mk.injEq] at h
            obtain ⟨_, rfl⟩ := h
            exact (first.trans (reopen_grows E cn _ _ _ hr)).trans
              (Grows.of_same cn2 w2 _ g2 _ hg2 (call_trace _ _ _))
      · simp only [Option.some.injEq, Prod.mk.injEq] at h
        obtain ⟨_, rfl⟩ := h
        exact first
    · simp only [Option.some.injEq, Prod.mk.injEq] at h
      obtain ⟨_, rfl⟩ := h
      exact first

theorem signOut_grows {σ : Type} (E : Env σ) (cn : connection) (w : World σ) (i : Int)
    (r : Option GoError) (s1 : State σ) (h : signOut E cn w i = some (r, s1)) :
    Grows (cn, w) s1 := by
  unfold signOut at h
  cases hg : cn.graph with
  | none => simp [hg] at h
  | some g =>
    simp only [hg, Option.some.injEq, Prod.mk.injEq] at h
    obtain ⟨_, rfl⟩ := h
    exact Grows.of_same cn w _ g _ hg (call_trace _ _ _)

theorem release_grows {σ : Type} (E : Env σ) (cn : connection) (w : World σ) :
    Grows (cn, w) (release E cn w) :=
  ⟨[], by simp [release], Or.inl ⟨rfl, fun _ e he => by simp at he⟩⟩

theorem Op.run_grows {σ : Type} (E : Env σ) (op : Op) (s s1 : State σ)
    (h : op.run E s = some s1) : Grows s s1 := by
  obtain ⟨cn, w⟩ := s
  cases op with
  | «open» a t c =>
    simp only [Op.run, Option.map_eq_some'] at h
    obtain ⟨⟨r, st⟩, h, rfl⟩ := h
    exact open_grows E cn w a t c r st h
  | reopen =>
    simp only [Op.run, Option.map_eq_some'] at h
    obtain ⟨⟨r, st⟩, h, rfl⟩ := h
    exact reopen_grows E cn w r st h
  | authenticate u p =>
    simp only [Op.run, Option.map_eq_some'] at h
    obtain ⟨⟨r, st⟩, h, rfl⟩ := h
    exact authenticate_grows E cn w u p r st h
  | executeWithParameter i q ps =>
    simp only [Op.run, Option.map_eq_some'] at h
    obtain ⟨⟨r, st⟩, h, rfl⟩ := h
    exact executeWithParameter_grows E cn w i q ps r st h
  | signOut i =>
    simp only [Op.run, Option.map_eq_some'] at h
    obtain ⟨⟨r, st⟩, h, rfl⟩ := h
    exact signOut_grows E cn w i r st h
  | release =>
    simp only [Op.run, Option.some.injEq] at h
    rw [← h]
    exact release_grows E cn w
  | close => exact close_grows E cn w s1 h

theorem runOps_grows {σ : Type} (E : Env σ) (ops : List Op) (s s1 : State σ)
    (h : runOps E ops s = some s1) : Grows s s1 := by
  induction ops generalizing s with
  | nil =>
    simp only [runOps, Option.some.injEq] at h
    rw [← h]
    exact Grows.refl s
  | cons op ops ih =>
    simp only [runOps] at h
    cases hr : op.run E s with
    | none => rw [hr] at h; cases h
    | some s0 =>
      rw [hr] at h
      exact (Op.run_grows E op s s0 hr).trans (ih s0 h)

theorem transportOpen_of_socks (g : ClientId) (tr : List Event)
    (h : ∀ e ∈ tr, e.isNewSock = true) : transportOpen g tr = false := by
  unfold transportOpen
  induction tr using List.reverseRecOn with
  | nil => rfl
  | append_singleton tr e ih =>
    rw [List.foldl_append, ih (fun x hx => h x (List.mem_append_left _ hx))]
    have he := h e (by simp)
    cases e <;> simp_all [Event.isNewSock, transportStep]

/-- C8 fails as stated: after `open` and `close` against a healthy server the
`graph` handle is still bound although the connection is closed. -/
theorem graph_bound_after_close :
    ∃ s, runOps (scripted healthy) [.open localhost 1000 none, .close] (unopened healthy)
        = some s ∧ s.1.graph = some 0 ∧ isOpen s = false :=
  ⟨(bound, { boundWorld with trace := boundWorld.trace ++ [Event.Close 0] }), rfl, rfl, rfl⟩

/-- C8, amended: in every state reached from `newConnection` by `open`,
`reopen`, `authenticate`, `executeWithParameter`, `signOut`, `release` and
`close`, an open connection, and indeed any open transport, implies a bound
`graph` handle; and the handle is bound exactly when some `open` has bound a
client, whether or not the connection was closed afterwards. -/
theorem graph_bound_iff_client_created {σ : Type} (E : Env σ) (e0 : σ)
    (severAddress : HostAddress) (ops : List Op) (s : State σ)
    (h : runOps E ops (newConnection E (World.fresh e0) severAddress) = some s) :
    (isOpen s = true → s.1.graph ≠ none) ∧
    ((∃ g, transportOpen g s.2.trace = true) → s.1.graph ≠ none) ∧
    (s.1.graph ≠ none ↔ ∃ e ∈ s.2.trace, e.isFactory = true) := by
  obtain ⟨evs, ht, hc⟩ := runOps_grows E ops _ s h
  have ht : s.2.trace = evs := by
    rw [ht]
    simp [newConnection, World.fresh]
  rw [ht]
  refine ⟨?_, ?_, ?_⟩
  · intro ho hn
    simp [isOpen, hn] at ho
  · rintro ⟨g, hg⟩ hn
    rcases hc with ⟨hs, hall⟩ | ⟨hs, _⟩
    · rw [transportOpen_of_socks g evs (hall rfl)] at hg
      cases hg
    · exact hs hn
  · rcases hc with ⟨hs, hall⟩ | ⟨hs, e, he, hf⟩
    · have hn : s.1.graph = none := hs
      constructor
      · intro hx
        exact absurd hn hx
      · rintro ⟨e, he, hf⟩
        have := hall rfl e he
        cases e <;> simp_all [Event.isNewSock, Event.isFactory]
    · exact ⟨fun _ => ⟨e, he, hf⟩, fun _ => hs⟩

/-- C8, amended, on a simulated server: after `open` and `close` the handle is
bound and the trace holds the factory call that bound it. -/
theorem graph_bound_iff_client_created_witness :
    ∃ s, runOps (scripted healthy) [.open localhost 1000 none, .close] (unopened healthy)
        = some s ∧
      (isOpen s = true → s.1.graph ≠ none) ∧
      ((∃ g, transportOpen g s.2.trace = true) → s.1.graph ≠ none) ∧
      (s.1.graph ≠ none ↔ ∃ e ∈ s.2.trace, e.isFactory = true) :=
  ⟨(bound, { boundWorld with trace := boundWorld.trace ++ [Event.Close 0] }), rfl,
    graph_bound_iff_client_created (scripted healthy) 0 localhost
      [.open localhost 1000 none, .close] _ rfl⟩

end NebulaGo

/-! ## The claims on `autopool.go` -/

namespace autopool

theorem SetFinalizer_some {T : Type} (rt : Runtime T) (v : Ptr) (o : Obj T) (set : Bool)
    (ho : rt.heap[v]? = some o) (hf : set = true → o.finalizer = false) :
    SetFinalizer rt v set
      = some { rt with heap := rt.heap.set v { o with finalizer := set } } := by
  unfold SetFinalizer
  rw [ho]
  cases set with
  | true => simp [hf rfl]
  | false => simp

theorem SetFinalizer_length {T : Type} (rt rt1 : Runtime T) (v : Ptr) (set : Bool)
    (h : SetFinalizer rt v set = some rt1) :
    rt1.heap.length = rt.heap.length ∧ v < rt.heap.length ∧ rt1.calls = rt.calls := by
  unfold SetFinalizer at h
  cases ho : rt.heap[v]? with
  | none => rw [ho] at h; cases h
  | some o =>
    have hv : v < rt.heap.length := by
      by_contra hc
      rw [List.getElem?_eq_none (Nat.le_of_not_lt hc)] at ho
      cases ho
    rw [ho] at h
    simp only [] at h
    split at h
    · split at h
      · cases h
      · cases h
        exact ⟨by simp, hv, rfl⟩
    · cases h
      exact ⟨by simp, hv, rfl⟩

/-- A handle that `Get` returned is an object of the heap `Get` left behind. -/
theorem Get_in_heap {T : Type} [Inhabited T] (p p1 : AutoPool T) (rt rt1 : Runtime T)
    (pick : Nat) (v : Ptr) (h : Get p rt pick = some (v, p1, rt1)) : v < rt1.heap.length := by
  unfold Get at h
  simp only [] at h
  split at h
  · cases h
  · rename_i rt2 hs
    obtain ⟨h1, h2, _⟩ := SetFinalizer_length _ _ _ _ hs
    split at h
    · simp only [Option.some.injEq, Prod.mk.injEq] at h
      obtain ⟨hv, _, hrt⟩ := h
      rw [← hrt, ← hv]
      simp only [callReset, List.length_modify]
      rw [h1]
      exact h2
    · simp only [Option.some.injEq, Prod.mk.injEq] at h
      obtain ⟨hv, _, hrt⟩ := h
      rw [← hrt, ← hv, h1]
      exact h2

/-- C9 fails as stated: after `Get`, a second `Put` of the same handle adds a
second entry for it to the reuse set. -/
theorem Put_twice_duplicates :
    ∃ v p1 rt1 p2 rt2 p3 rt3, Get counters emptyRuntime 0 = some (v, p1, rt1) ∧
      Put p1 rt1 v = some (p2, rt2) ∧ Put p2 rt2 v = some (p3, rt3) ∧
      p2.pool = [v] ∧ p3.pool = [v, v] ∧ p3.pool ≠ p2.pool :=
  ⟨0, _, _, _, _, _, _, rfl, rfl, rfl, rfl, rfl, by decide⟩

/-- C9, amended: for a handle obtained from `Get`, every `Put` clears the
handle's finalizer and adds one entry for it to the reuse set, also when the
set already holds it: after two `Put`s the set holds the handle once more
than after one. -/
theorem Put_adds_one_entry_each_time {T : Type} [Inhabited T] (p0 p : AutoPool T)
    (rt0 rt : Runtime T) (pick : Nat) (v : Ptr) (h : Get p0 rt0 pick = some (v, p, rt)) :
    ∃ p1 rt1 p2 rt2, Put p rt v = some (p1, rt1) ∧ Put p1 rt1 v = some (p2, rt2) ∧
      p1.pool = p.pool ++ [v] ∧ p2.pool = p.pool ++ [v, v] ∧
      p2.pool.count v = p1.pool.count v + 1 ∧
      (rt1.heap[v]?).map (fun o => o.finalizer) = some false ∧
      (rt2.heap[v]?).map (fun o => o.finalizer) = some false := by
  have hv := Get_in_heap p0 p rt0 rt pick v h
  have ho : rt.heap[v]? = some (rt.heap[v]) := List.getElem?_eq_getElem hv
  have e1 := SetFinalizer_some rt v _ false ho (by simp)
  have ho1 : ({ rt with heap := rt.heap.set v { rt.heap[v] with finalizer := false } }
      : Runtime T).heap[v]? = some { rt.heap[v] with finalizer := false } := by
    simp [hv]
  have e2 := SetFinalizer_some _ v _ false ho1 (by simp)
  refine ⟨_, _, _, _, by rw [Put, e1], by rw [Put, e2], rfl, ?_, ?_, ?_, ?_⟩
  · simp [syncPoolPut]
  · simp [syncPoolPut, List.count_append]
  · simp [hv]
  · simp [hv]

/-- C9, amended, on the pool of counters. -/
theorem Put_adds_one_entry_each_time_witness :
    ∃ p1 rt1 p2 rt2,
      Put { counters with pool := [] }
          { heap := [{ val := 0, finalizer := true }], calls := [.New, .Reset 0] } 0
        = some (p1, rt1) ∧
      Put p1 rt1 0 = some (p2, rt2) ∧
      p1.pool = [] ++ [0] ∧ p2.pool = [] ++ [0, 0] ∧
      p2.pool.count 0 = p1.pool.count 0 + 1 ∧
      (rt1.heap[0]?).map (fun o => o.finalizer) = some false ∧
      (rt2.heap[0]?).map (fun o => o.finalizer) = some false :=
  Put_adds_one_entry_each_time counters { counters with pool := [] } emptyRuntime
    { heap := [{ val := 0, finalizer := true }], calls := [.New, .Reset 0] } 0 0 rfl

end autopool

namespace autopool

theorem modify_last {α : Type} (f : α → α) (l : List α) (x : α) :
    List.modify f l.length (l ++ [x]) = l ++ [f x] := by
  induction l with
  | nil => rfl
  | cons a l ih => simp [ih]

/-- C10 fails as stated, in two ways.  First: after `Get` and `Put` the reuse
set holds the released instance, yet when `sync.Pool.Get` ignores its contents
`Get` calls `New` and returns a fresh instance, and the released one stays in
the set.  Second: after `Get`, `Put`, `Put`, `Get` the reuse set still holds
the instance, whose finalizer the last `Get` has set, and the next `Get` that
is handed it aborts in `runtime.SetFinalizer` instead of returning it. -/
theorem Get_on_held_instance_misses_or_aborts :
    (∃ v p1 rt1 p2 rt2 w p3 rt3, Get counters emptyRuntime 0 = some (v, p1, rt1) ∧
      Put p1 rt1 v = some (p2, rt2) ∧ p2.pool = [v] ∧
      Get p2 rt2 1 = some (w, p3, rt3) ∧ w ≠ v ∧ p3.pool = [v] ∧
      rt3.calls = rt2.calls ++ [Call.New, Call.Reset w]) ∧
    (∃ v p1 rt1 p2 rt2 p3 rt3 p4 rt4, Get counters emptyRuntime 0 = some (v, p1, rt1) ∧
      Put p1 rt1 v = some (p2, rt2) ∧ Put p2 rt2 v = some (p3, rt3) ∧
      Get p3 rt3 0 = some (v, p4, rt4) ∧ p4.pool = [v] ∧ Get p4 rt4 0 = none) :=
  ⟨⟨0, _, _, _, _, 1, _, _, rfl, rfl, rfl, rfl, by decide, rfl, rfl⟩,
   ⟨0, _, _, _, _, _, _, _, _, rfl, rfl, rfl, rfl, rfl, rfl⟩⟩

/-- C10, amended: with a `Reset` hook configured, when `sync.Pool.Get` hands
out an instance of the reuse set whose finalizer is cleared (the state in
which `Put` leaves a released instance), `Get` returns that instance, removes
it from the set and does not call `New`; when `sync.Pool.Get` returns nil, on
an empty reuse set and also when the pool ignores what it holds, `Get` returns
a fresh object, built by `New` or zero-valued when there is no `New`, and
leaves the set as it is; either way `Reset` is called on the returned
instance exactly once. -/
theorem Get_reuses_or_constructs {T : Type} [Inhabited T] (p : AutoPool T) (rt : Runtime T)
    (pick : Nat) (f : T → T) (hR : p.Reset = some f) :
    (∀ v o, p.pool[pick]? = some v → rt.heap[v]? = some o → o.finalizer = false →
      ∃ rt1, Get p rt pick = some (v, { p with pool := p.pool.eraseIdx pick }, rt1) ∧
        v ∈ p.pool ∧
        (p.pool.eraseIdx pick).length + 1 = p.pool.length ∧
        rt1.calls = rt.calls ++ [Call.Reset v] ∧
        rt1.heap[v]? = some { val := f o.val, finalizer := true } ∧
        rt1.heap.length = rt.heap.length) ∧
    ((p.pool = [] ∨ p.pool[pick]? = none) →
      ∃ rt1, Get p rt pick = some (rt.heap.length, p, rt1) ∧
        rt1.heap = rt.heap ++
          [{ val := f (match p.New with | some new => new () | none => default)
             finalizer := true }] ∧
        rt1.calls = rt.calls ++ (match p.New with | some _ => [Call.New] | none => [])
          ++ [Call.Reset rt.heap.length]) := by
  constructor
  · intro v o hv ho hf
    have hlt : pick < p.pool.length := by
      by_contra hc
      rw [List.getElem?_eq_none (Nat.le_of_not_lt hc)] at hv
      cases hv
    have hvl : v < rt.heap.length := by
      by_contra hc
      rw [List.getElem?_eq_none (Nat.le_of_not_lt hc)] at ho
      cases ho
    have hg : Get p rt pick
        = some (v, { p with pool := p.pool.eraseIdx pick },
            callReset { rt with heap := rt.heap.set v { o with finalizer := true } } f v) := by
      unfold Get
      simp only [syncPoolGet, hv, hR]
      rw [SetFinalizer_some rt v o true ho (fun _ => hf)]
    refine ⟨_, hg, List.getElem?_mem hv, ?_, rfl, ?_, ?_⟩
    · rw [List.length_eraseIdx, if_pos hlt]
      omega
    · simp [callReset, List.getElem?_modify, hvl]
    · simp [callReset]
  · intro hp
    have hn : p.pool[pick]? = none := by
      rcases hp with hp | hp
      · rw [hp]; rfl
      · exact hp
    obtain ⟨pool, New, Reset⟩ := p
    simp only at hn hR
    subst hR
    have hget : syncPoolGet pool pick = (none, pool) := by simp [syncPoolGet, hn]
    cases New with
    | none =>
      refine ⟨callReset { rt with heap := rt.heap ++ [{ val := default, finalizer := true }] } f
        rt.heap.length, ?_, ?_, ?_⟩
      · unfold Get
        simp only [hget, alloc]
        rw [SetFinalizer_some _ rt.heap.length { val := default, finalizer := false } true
          (by simp) (fun _ => rfl)]
        simp
      · simp [callReset, modify_last]
      · simp [callReset]
    | some new =>
      refine ⟨callReset { heap := rt.heap ++ [{ val := new (), finalizer := true }]
                          calls := rt.calls ++ [Call.New] } f rt.heap.length, ?_, ?_, ?_⟩
      · unfold Get
        simp only [hget, alloc]
        rw [SetFinalizer_some _ rt.heap.length { val := new (), finalizer := false } true
          (by simp) (fun _ => rfl)]
        simp
      · simp [callReset, modify_last]
      · simp [callReset]

/-- C10, amended, on the pool of counters: the first `Get` finds the set empty,
constructs with `New` and resets once; after a `Put`, a `Get` that is handed
the instance returns it, reset once more, without calling `New`; a `Get` for
which the pool ignores the instance constructs a second one. -/
theorem Get_reuses_or_constructs_witness :
    (∃ rt1, Get counters emptyRuntime 0 = some (0, counters, rt1) ∧
        rt1.heap = [{ val := 0, finalizer := true }] ∧
        rt1.calls = [Call.New, Call.Reset 0]) ∧
    (∃ rt1, Get { counters with pool := [0] }
          { heap := [{ val := 9, finalizer := false }], calls := [.New, .Reset 0] } 0
          = some (0, { counters with pool := [] }, rt1) ∧
        0 ∈ [0] ∧ ([0].eraseIdx 0).length + 1 = 1 ∧
        rt1.calls = [Call.New, Call.Reset 0, Call.Reset 0] ∧
        rt1.heap[0]? = some { val := 0, finalizer := true } ∧
        rt1.heap.length = 1) ∧
    (∃ rt1, Get { counters with pool := [0] }
          { heap := [{ val := 9, finalizer := false }], calls := [.New, .Reset 0] } 1
          = some (1, { counters with pool := [0] }, rt1) ∧
        rt1.heap = [{ val := 9, finalizer := false }, { val := 0, finalizer := true }] ∧
        rt1.calls = [Call.New, Call.Reset 0, Call.New, Call.Reset 1]) :=
  ⟨(Get_reuses_or_constructs counters emptyRuntime 0 (fun _ => 0) rfl).2 (Or.inl rfl),
   (Get_reuses_or_constructs { counters with pool := [0] }
      { heap := [{ val := 9, finalizer := false }], calls := [.New, .Reset 0] } 0
      (fun _ => 0) rfl).1 0 { val := 9, finalizer := false } rfl rfl rfl,
   (Get_reuses_or_constructs { counters with pool := [0] }
      { heap := [{ val := 9, finalizer := false }], calls := [.New, .Reset 0] } 1
      (fun _ => 0) rfl).2 (Or.inr rfl)⟩

end autopool
